import Mathlib

/-!
# Auth5/brain — configuration subsystem (`internal/config`)

A shallow embedding of `types.go`, `helper.go` and `config.go`.

* The configuration structures of `types.go` are Lean structures with the same
  field names; Go `int` is `Int`, Go slices are `List`.
* The process-wide variables `k` and `Cfg` of `config.go` are the two fields of
  `State`; functions that read them take the state (or `Cfg`) as an argument.
* `GetSMTPConfig` returns `Except String SMTPConfig`: `.ok` for `(&email.SMTP, nil)`,
  `.error msg` for `(nil, fmt.Errorf(msg))`.
* The section getters of `helper.go` return the section read from `Cfg` together with
  the state after the call.
-/

namespace config

/-! ## types.go -/

structure SiteConfig where
  Name : String
  URL : String
  APIURL : String
deriving DecidableEq, Repr, Inhabited

structure ServerConfig where
  Host : String
  Port : Int
deriving DecidableEq, Repr, Inhabited

structure SwaggerConfig where
  Web : Bool
  Path : String
deriving DecidableEq, Repr, Inhabited

structure WebhookConfig where
  Secret : String
deriving DecidableEq, Repr, Inhabited

structure StripeConfig where
  SecretKey : String
  Webhook : WebhookConfig
deriving DecidableEq, Repr, Inhabited

structure GeoLite2Config where
  Country : String
deriving DecidableEq, Repr, Inhabited

structure MaxMindConfig where
  GeoLite2 : GeoLite2Config
deriving DecidableEq, Repr, Inhabited

structure SentryConfig where
  DSN : String
deriving DecidableEq, Repr, Inhabited

structure SMTPConfig where
  Name : String
  From : String
  Username : String
  Password : String
  Host : String
  Port : Int
  TLS : Bool
deriving DecidableEq, Repr, Inhabited

structure EmailConfig where
  Nickname : String
  SMTP : SMTPConfig
deriving DecidableEq, Repr, Inhabited

structure CORSConfig where
  Origins : List String
deriving DecidableEq, Repr, Inhabited

structure MongoDBConfig where
  URI : String
  DBName : String
deriving DecidableEq, Repr, Inhabited

structure BadgerConfig where
  Dir : String
deriving DecidableEq, Repr, Inhabited

structure DatabaseConfig where
  MongoDB : MongoDBConfig
  Badger : BadgerConfig
deriving DecidableEq, Repr, Inhabited

structure OAuthConfig where
  ClientID : String
  ClientSecret : String
  RedirectURL : String
deriving DecidableEq, Repr, Inhabited

structure OAuthProviders where
  Google : OAuthConfig
  GitHub : OAuthConfig
deriving DecidableEq, Repr, Inhabited

structure Config where
  Server : ServerConfig
  Swagger : SwaggerConfig
  Stripe : StripeConfig
  MaxMind : MaxMindConfig
  Sentry : SentryConfig
  Emails : List EmailConfig
  CORS : CORSConfig
  Database : DatabaseConfig
  Site : SiteConfig
  OAuth : OAuthProviders
deriving DecidableEq, Repr, Inhabited

/-! ## Validation: the `validate` struct tags, as run by `validate.Struct(Cfg)`

The tag engine is the external package `go-playground/validator/v10`; its rules are
embedded as that package documents them:

* the tags of a field are tried left to right and the first one that fails records one
  error for the field and ends the field (later tags, `dive` included, are not run);
* `required` fails on the zero value: `""` for a string, `0` for an `int`, a nil slice;
* `min=n` / `max=n` compare an `int` by value and a slice by length;
* `dive` runs the remaining tags on every element of a slice; an element of struct type
  is validated field by field;
* on a field of (non-pointer) struct type `required` itself checks nothing and the
  engine descends into the struct's own fields.

The string formats behind `url`, `ip` and `email` are parsers of that package and of the
Go standard library; they are taken as parameters (`Formats`). -/

/-- The three string-format checks used by the tags `url`, `ip` and `email`. -/
structure Formats where
  url : String → Bool
  ip : String → Bool
  email : String → Bool

/-- A validation error, identified by the name of the struct field that failed. -/
abbrev FieldError := String

/-- Tags that occur on `string` fields in `types.go`. -/
inductive StrTag where
  | required
  | url
  | ip
  | email
deriving DecidableEq, Repr

/-- Tags that occur on `int` fields in `types.go`. -/
inductive IntTag where
  | required
  | min (n : Int)
  | max (n : Int)
deriving DecidableEq, Repr

/-- Tags that occur on slice fields in `types.go`, before `dive`. -/
inductive SliceTag where
  | required
  | min (n : Nat)
deriving DecidableEq, Repr

/-- Whether one tag accepts a string value. -/
def StrTag.holds (F : Formats) : StrTag → String → Bool
  | .required, s => decide (s ≠ "")
  | .url, s => F.url s
  | .ip, s => F.ip s
  | .email, s => F.email s

/-- Whether one tag accepts an `int` value. -/
def IntTag.holds : IntTag → Int → Bool
  | .required, i => decide (i ≠ 0)
  | .min n, i => decide (n ≤ i)
  | .max n, i => decide (i ≤ n)

/-- Whether one tag accepts a slice value. The list `[]` stands for the nil slice as
well as for an empty non-nil one: Go's `required` rejects only the former and `min=1`
rejects the latter, and every slice field of `types.go` carries both tags, so the
field is rejected in either case. -/
def SliceTag.holds {α : Type} : SliceTag → List α → Bool
  | .required, xs => !xs.isEmpty
  | .min n, xs => decide (n ≤ xs.length)

/-- Validation of one `string` field: no error when every tag holds, else one error. -/
def checkString (F : Formats) (field : String) (tags : List StrTag) (v : String) :
    List FieldError :=
  if tags.all (fun t => t.holds F v) then [] else [field]

/-- Validation of one `int` field. -/
def checkInt (field : String) (tags : List IntTag) (v : Int) : List FieldError :=
  if tags.all (fun t => t.holds v) then [] else [field]

/-- Validation of one slice field whose tag list ends in `dive`: when the tags before
`dive` hold, the errors of the elements in order; else one error for the field. -/
def checkSlice {α : Type} (field : String) (tags : List SliceTag)
    (dive : α → List FieldError) (v : List α) : List FieldError :=
  if tags.all (fun t => t.holds v) then (v.map dive).flatten else [field]

def SiteConfig.validate (F : Formats) (c : SiteConfig) : List FieldError :=
  checkString F "Name" [.required] c.Name ++
  checkString F "URL" [.required, .url] c.URL ++
  checkString F "APIURL" [.required, .url] c.APIURL

def ServerConfig.validate (F : Formats) (c : ServerConfig) : List FieldError :=
  checkString F "Host" [.required, .ip] c.Host ++
  checkInt "Port" [.required, .min 1, .max 65535] c.Port

def SwaggerConfig.validate (F : Formats) (c : SwaggerConfig) : List FieldError :=
  checkString F "Path" [.required] c.Path

def WebhookConfig.validate (F : Formats) (c : WebhookConfig) : List FieldError :=
  checkString F "Secret" [.required] c.Secret

def StripeConfig.validate (F : Formats) (c : StripeConfig) : List FieldError :=
  checkString F "SecretKey" [.required] c.SecretKey ++
  c.Webhook.validate F

def GeoLite2Config.validate (F : Formats) (c : GeoLite2Config) : List FieldError :=
  checkString F "Country" [.required, .url] c.Country

def MaxMindConfig.validate (F : Formats) (c : MaxMindConfig) : List FieldError :=
  c.GeoLite2.validate F

def SentryConfig.validate (F : Formats) (c : SentryConfig) : List FieldError :=
  checkString F "DSN" [.required] c.DSN

def SMTPConfig.validate (F : Formats) (c : SMTPConfig) : List FieldError :=
  checkString F "Name" [.required] c.Name ++
  checkString F "From" [.required, .email] c.From ++
  checkString F "Username" [.required, .email] c.Username ++
  checkString F "Password" [.required] c.Password ++
  checkString F "Host" [.required] c.Host ++
  checkInt "Port" [.required, .min 1, .max 65535] c.Port

def EmailConfig.validate (F : Formats) (c : EmailConfig) : List FieldError :=
  checkString F "Nickname" [.required] c.Nickname ++
  c.SMTP.validate F

def CORSConfig.validate (F : Formats) (c : CORSConfig) : List FieldError :=
  checkSlice "Origins" [.required, .min 1] (checkString F "Origins" [.url]) c.Origins

def MongoDBConfig.validate (F : Formats) (c : MongoDBConfig) : List FieldError :=
  checkString F "URI" [.required] c.URI ++
  checkString F "DBName" [.required] c.DBName

def BadgerConfig.validate (F : Formats) (c : BadgerConfig) : List FieldError :=
  checkString F "Dir" [.required] c.Dir

def DatabaseConfig.validate (F : Formats) (c : DatabaseConfig) : List FieldError :=
  c.MongoDB.validate F ++
  c.Badger.validate F

def OAuthConfig.validate (F : Formats) (c : OAuthConfig) : List FieldError :=
  checkString F "ClientID" [.required] c.ClientID ++
  checkString F "ClientSecret" [.required] c.ClientSecret ++
  checkString F "RedirectURL" [.required, .url] c.RedirectURL

def OAuthProviders.validate (F : Formats) (c : OAuthProviders) : List FieldError :=
  c.Google.validate F ++
  c.GitHub.validate F

/-- All field errors of a `Config`, in field order: what `validate.Struct(Cfg)` collects. -/
def Config.validate (F : Formats) (c : Config) : List FieldError :=
  c.Server.validate F ++
  c.Swagger.validate F ++
  c.Stripe.validate F ++
  c.MaxMind.validate F ++
  c.Sentry.validate F ++
  checkSlice "Emails" [.required, .min 1] (EmailConfig.validate F) c.Emails ++
  c.CORS.validate F ++
  c.Database.validate F ++
  c.Site.validate F ++
  c.OAuth.validate F

/-- The result of `validate.Struct(Cfg)`: `none` for a nil error, else the errors found. -/
def validateStruct (F : Formats) (c : Config) : Option (List FieldError) :=
  if c.validate F = [] then none else some (c.validate F)

/-! ## config.go

`InitConfig` talks to the process environment, to the file system and to the external
package `koanf`. The embedding makes each of them explicit:

* the environment is the list `environ` of `(name, value)` pairs, in `os.Environ` order;
* reading and parsing the settings file, and decoding the key tree into the `Config`
  struct (`k.Unmarshal`, driven by the `koanf:"..."` tags), are fields of `Runtime`;
* the key tree of the `koanf` instance `k`, the environment provider and the merge of
  a loaded layer into `k` are embedded as the package documents them;
* `log.Fatal()...Msg(...)` ends the process: the run ends in `Outcome.fatal`, which
  records the message and the process state at that point. -/

mutual
/-- A value of the `koanf` key tree (`map[string]interface{}` and what it holds). -/
inductive KVal where
  | str (s : String)
  | int (i : Int)
  | bool (b : Bool)
  | list (xs : KList)
  | map (m : KMap)
/-- A list value of the key tree. -/
inductive KList where
  | nil
  | cons (v : KVal) (rest : KList)
/-- A string-keyed map of the key tree, as an association list with distinct keys. -/
inductive KMap where
  | nil
  | cons (key : String) (v : KVal) (rest : KMap)
end

/-- Map lookup `m[key]`. -/
def KMap.get (key : String) : KMap → Option KVal
  | .nil => none
  | .cons k v rest => if k = key then some v else KMap.get key rest

/-- Map assignment `m[key] = v`: replaces the entry of `key`, or adds one. -/
def KMap.set (key : String) (v : KVal) : KMap → KMap
  | .nil => .cons key v .nil
  | .cons k w rest => if k = key then .cons k v rest else .cons k w (KMap.set key v rest)

/-- Lookup along a key path, as `k.Get("a.b.c")` does for the path `["a", "b", "c"]`. -/
def KMap.getPath : List String → KMap → Option KVal
  | [], _ => none
  | [key], m => m.get key
  | key :: rest, m =>
    match m.get key with
    | some (.map sub) => KMap.getPath rest sub
    | _ => none

/-- Go `strings.Split(s, d)` for a one-character separator, on the characters of `s`;
`cur` holds the characters of the current piece, last one first. -/
def splitDelim (d : Char) : List Char → List Char → List String
  | cur, [] => [String.mk cur.reverse]
  | cur, c :: cs =>
    if c = d then String.mk cur.reverse :: splitDelim d [] cs
    else splitDelim d (c :: cur) cs

/-- One step of `maps.Unflatten`: store `v` under the key path `keys` in `m`, creating
the intermediate maps; an intermediate key that holds a non-map value is stepped over. -/
def unflattenKey : List String → KVal → KMap → KMap
  | [], _, m => m
  | [key], v, m => m.set key v
  | key :: rest, v, m =>
    match m.get key with
    | none => m.set key (.map (unflattenKey rest v .nil))
    | some (.map sub) => m.set key (.map (unflattenKey rest v sub))
    | some _ => unflattenKey rest v m

/-- The package function `maps.Unflatten(mp, delim)`: the flat pairs become a nested map,
each key split at the delimiter. -/
def Unflatten (delim : Char) : List (String × String) → KMap → KMap
  | [], out => out
  | (key, value) :: rest, out =>
    Unflatten delim rest (unflattenKey (splitDelim delim [] key.data) (.str value) out)

/-- The environment provider `env.Provider(pfx, delim, cb).Read()`: the variables whose
name starts with `pfx` are kept; each is stored under the key `cb name` (dropped when
that is empty) with its value as a string; the flat map is then unflattened at `delim`.
The provider does not remove `pfx` from the name: that is left to `cb`. -/
def envProviderRead (environ : List (String × String)) (pfx : String) (delim : Char)
    (cb : String → String) : KMap :=
  Unflatten delim
    ((environ.filter (fun kv => pfx.data.isPrefixOf kv.1.data)).filterMap
      (fun kv => if cb kv.1 = "" then none else some (cb kv.1, kv.2)))
    .nil

/-- The package function `maps.Merge(src, dst)`, run by `k.Load` on each loaded layer:
every key of `src` is written over `dst`, except that two maps under the same key are
merged recursively. -/
def KMap.merge : KMap → KMap → KMap
  | .nil, dst => dst
  | .cons key (.map m) rest, dst =>
    match dst.get key with
    | some (.map d) => KMap.merge rest (dst.set key (.map (KMap.merge m d)))
    | _ => KMap.merge rest (dst.set key (.map m))
  | .cons key v rest, dst => KMap.merge rest (dst.set key v)

/-- Go `os.Getenv(name)`: the value of the variable, `""` when it is not set. -/
def Getenv (environ : List (String × String)) (name : String) : String :=
  match environ.find? (fun kv => kv.1 = name) with
  | some kv => kv.2
  | none => ""

/-- What `InitConfig` obtains from outside the repository. -/
structure Runtime where
  /-- The process environment, as `os.Environ` lists it: one pair per variable name. -/
  environ : List (String × String)
  /-- Reading the file at a path and parsing it as YAML: the key tree, or the error. -/
  loadYaml : String → Except String KMap
  /-- Decoding of the key tree into `&Cfg` by `k.Unmarshal("", &Cfg)`: the contents of
  `Cfg` afterwards, and the error if there is one. -/
  unmarshal : KMap → Config → Config × Option String
  /-- The string formats of the validator. -/
  formats : Formats

/-- The package-level variables of `config.go`. -/
structure State where
  k : KMap
  Cfg : Config

/-- The values of `k` (`koanf.New(".")`, empty) and `Cfg` (the zero `Config`) when the
process starts. -/
def initialState : State :=
  { k := .nil, Cfg := default }

/-- How a call of `InitConfig` ends. -/
inductive Outcome where
  /-- The function returned to its caller. -/
  | returned (s : State)
  /-- The process was ended by `log.Fatal` with message `msg`, in state `s`. -/
  | fatal (msg : String) (s : State)

/-- The path of the settings file: the first lines of `InitConfig`. -/
def configFile (environ : List (String × String)) : String :=
  if Getenv environ "AUTH5_CONFIG" = "" then "auth5.yml" else Getenv environ "AUTH5_CONFIG"

/-- The function `InitConfig` of `config.go`: the file layer and then the environment
layer are merged into `k`, `k` is decoded into `Cfg`, and `Cfg` is validated. Reading
the environment has no failure case, so the non-fatal `log.Error` branch of the second
`k.Load` does not occur; the log lines have no effect on the state. -/
def InitConfig (rt : Runtime) (st : State) : Outcome :=
  match rt.loadYaml (configFile rt.environ) with
  | .error _ => .fatal "Error loading config file" st
  | .ok layer =>
    let k1 := KMap.merge layer st.k
    let k2 := KMap.merge (envProviderRead rt.environ "AUTH5_" '.' (fun s => s)) k1
    match rt.unmarshal k2 st.Cfg with
    | (cfg, some _) => .fatal "Error unmarshalling config" { k := k2, Cfg := cfg }
    | (cfg, none) =>
      match validateStruct rt.formats cfg with
      | some _ => .fatal "Configuration validation failed" { k := k2, Cfg := cfg }
      | none => .returned { k := k2, Cfg := cfg }

/-! ## helper.go -/

/-- The body of the `for _, email := range Cfg.Emails` loop of `GetSMTPConfig`,
followed by the `return nil, fmt.Errorf(...)` after the loop. -/
def GetSMTPConfig.scan (nickname : String) : List EmailConfig → Except String SMTPConfig
  | [] => .error ("SMTP configuration not found for nickname: " ++ nickname)
  | email :: rest =>
    if email.Nickname = nickname then .ok email.SMTP
    else GetSMTPConfig.scan nickname rest

/-- Lookup of a mail profile by nickname: `GetSMTPConfig` of `helper.go`, reading `Cfg`. -/
def GetSMTPConfig (Cfg : Config) (nickname : String) : Except String SMTPConfig :=
  GetSMTPConfig.scan nickname Cfg.Emails

/-! ## The validation rule table of the specification (section 4.1)

These predicates follow the rows of the table in the specification's words, with
"required" read as "not the zero value" and "valid URL / IP address / email" read as the
corresponding check of `Formats`; they are compared with `Config.validate` below. -/

/-- Row "site name, site URL, API URL". -/
def SiteRule (F : Formats) (c : SiteConfig) : Prop :=
  c.Name ≠ "" ∧ (c.URL ≠ "" ∧ F.url c.URL = true) ∧ (c.APIURL ≠ "" ∧ F.url c.APIURL = true)

/-- Rows "server host" and "server port". -/
def ServerRule (F : Formats) (c : ServerConfig) : Prop :=
  (c.Host ≠ "" ∧ F.ip c.Host = true) ∧ (1 ≤ c.Port ∧ c.Port ≤ 65535)

/-- Row "payment secret key, payment webhook secret". -/
def StripeRule (c : StripeConfig) : Prop :=
  c.SecretKey ≠ "" ∧ c.Webhook.Secret ≠ ""

/-- Row "geolocation feed URL". -/
def MaxMindRule (F : Formats) (c : MaxMindConfig) : Prop :=
  c.GeoLite2.Country ≠ "" ∧ F.url c.GeoLite2.Country = true

/-- Rows "mail profile nickname, from/username (valid email), password, host" and
"mail profile port", for one profile. -/
def MailProfileRule (F : Formats) (e : EmailConfig) : Prop :=
  e.Nickname ≠ "" ∧
  (e.SMTP.From ≠ "" ∧ F.email e.SMTP.From = true) ∧
  (e.SMTP.Username ≠ "" ∧ F.email e.SMTP.Username = true) ∧
  e.SMTP.Password ≠ "" ∧
  e.SMTP.Host ≠ "" ∧
  (1 ≤ e.SMTP.Port ∧ e.SMTP.Port ≤ 65535)

/-- Row "mail profile list": at least one element, each element satisfying its rows. -/
def EmailsRule (F : Formats) (l : List EmailConfig) : Prop :=
  l ≠ [] ∧ ∀ e ∈ l, MailProfileRule F e

/-- Row "cross-origin allowed origins". -/
def CORSRule (F : Formats) (c : CORSConfig) : Prop :=
  c.Origins ≠ [] ∧ ∀ o ∈ c.Origins, F.url o = true

/-- Row "persistence backend URIs/dir/db-name". -/
def DatabaseRule (c : DatabaseConfig) : Prop :=
  c.MongoDB.URI ≠ "" ∧ c.Badger.Dir ≠ "" ∧ c.MongoDB.DBName ≠ ""

/-- Row "identity-provider client id/secret/redirect URL", for one provider. -/
def OAuthRule (F : Formats) (c : OAuthConfig) : Prop :=
  c.ClientID ≠ "" ∧ c.ClientSecret ≠ "" ∧ (c.RedirectURL ≠ "" ∧ F.url c.RedirectURL = true)

/-- Every row of the specification's validation rule table holds of the configuration. -/
def SpecTable (F : Formats) (c : Config) : Prop :=
  SiteRule F c.Site ∧
  ServerRule F c.Server ∧
  c.Swagger.Path ≠ "" ∧
  StripeRule c.Stripe ∧
  MaxMindRule F c.MaxMind ∧
  c.Sentry.DSN ≠ "" ∧
  EmailsRule F c.Emails ∧
  CORSRule F c.CORS ∧
  DatabaseRule c.Database ∧
  (OAuthRule F c.OAuth.Google ∧ OAuthRule F c.OAuth.GitHub)

/-! ## Decoding by the `koanf:"..."` tags of `types.go`

`k.Unmarshal("", &Cfg)` hands the key tree to the external package `mapstructure`, which
fills each field of `Cfg` in place from the key named by its `koanf` tag: a field that
decodes is written, a field that does not is left as it was and its error is collected,
and the decoding goes on with the remaining fields, so that after a failed `Unmarshal`
`Cfg` holds every field that could be decoded. The functions below follow the tags of
`types.go` on key trees in which each value has the Go type of its field (what the YAML
parser yields for a well-typed file) or a type that cannot be converted to it. Each
returns the new contents of the field and whether an error was met. A key that is absent
leaves the field as it was; keys that no tag names are ignored; the elements of a slice
are decoded from zero values. A value of another type counts as an error here, where
`mapstructure` would first attempt a conversion, and a key is matched to a tag exactly,
where `mapstructure` would fall back to a match up to letter case when the exact key is
absent. The general theorems are stated for an arbitrary `Runtime.unmarshal`; this
decoder is the one used by the closed instances, whose key trees lie in that fragment. -/

/-- Decoding of a `string` field from the key `key`. -/
def decodeString (m : KMap) (key : String) (old : String) : String × Bool :=
  match m.get key with
  | none => (old, false)
  | some (.str s) => (s, false)
  | some _ => (old, true)

/-- Decoding of an `int` field from the key `key`. -/
def decodeInt (m : KMap) (key : String) (old : Int) : Int × Bool :=
  match m.get key with
  | none => (old, false)
  | some (.int i) => (i, false)
  | some _ => (old, true)

/-- Decoding of a `bool` field from the key `key`. -/
def decodeBool (m : KMap) (key : String) (old : Bool) : Bool × Bool :=
  match m.get key with
  | none => (old, false)
  | some (.bool b) => (b, false)
  | some _ => (old, true)

/-- Decoding of a field of struct type, in place, from the map under the key `key`. -/
def decodeStruct {α : Type} (m : KMap) (key : String) (dec : KMap → α → α × Bool)
    (old : α) : α × Bool :=
  match m.get key with
  | none => (old, false)
  | some (.map sub) => dec sub old
  | some _ => (old, true)

/-- Decoding of the elements of a `[]string`; an element that does not decode stays `""`. -/
def decodeStrings : KList → List String × Bool
  | .nil => ([], false)
  | .cons (.str s) rest => (s :: (decodeStrings rest).1, (decodeStrings rest).2)
  | .cons _ rest => ("" :: (decodeStrings rest).1, true)

/-- Decoding of the elements of a slice of structs, each into the zero value `zero`; an
element that is not a map stays `zero`. -/
def decodeStructs {α : Type} (dec : KMap → α → α × Bool) (zero : α) : KList → List α × Bool
  | .nil => ([], false)
  | .cons (.map sub) rest =>
    ((dec sub zero).1 :: (decodeStructs dec zero rest).1,
      (dec sub zero).2 || (decodeStructs dec zero rest).2)
  | .cons _ rest => (zero :: (decodeStructs dec zero rest).1, true)

def SiteConfig.decode (m : KMap) (old : SiteConfig) : SiteConfig × Bool :=
  let name := decodeString m "name" old.Name
  let url := decodeString m "url" old.URL
  let apiURL := decodeString m "api_url" old.APIURL
  ({ Name := name.1, URL := url.1, APIURL := apiURL.1 }, name.2 || url.2 || apiURL.2)

def ServerConfig.decode (m : KMap) (old : ServerConfig) : ServerConfig × Bool :=
  let host := decodeString m "host" old.Host
  let port := decodeInt m "port" old.Port
  ({ Host := host.1, Port := port.1 }, host.2 || port.2)

def SwaggerConfig.decode (m : KMap) (old : SwaggerConfig) : SwaggerConfig × Bool :=
  let web := decodeBool m "web" old.Web
  let path := decodeString m "path" old.Path
  ({ Web := web.1, Path := path.1 }, web.2 || path.2)

def WebhookConfig.decode (m : KMap) (old : WebhookConfig) : WebhookConfig × Bool :=
  let secret := decodeString m "secret" old.Secret
  ({ Secret := secret.1 }, secret.2)

def StripeConfig.decode (m : KMap) (old : StripeConfig) : StripeConfig × Bool :=
  let secretKey := decodeString m "secret_key" old.SecretKey
  let webhook := decodeStruct m "webhook" WebhookConfig.decode old.Webhook
  ({ SecretKey := secretKey.1, Webhook := webhook.1 }, secretKey.2 || webhook.2)

def GeoLite2Config.decode (m : KMap) (old : GeoLite2Config) : GeoLite2Config × Bool :=
  let country := decodeString m "country" old.Country
  ({ Country := country.1 }, country.2)

def MaxMindConfig.decode (m : KMap) (old : MaxMindConfig) : MaxMindConfig × Bool :=
  let geoLite2 := decodeStruct m "geolite2" GeoLite2Config.decode old.GeoLite2
  ({ GeoLite2 := geoLite2.1 }, geoLite2.2)

def SentryConfig.decode (m : KMap) (old : SentryConfig) : SentryConfig × Bool :=
  let dsn := decodeString m "dsn" old.DSN
  ({ DSN := dsn.1 }, dsn.2)

def SMTPConfig.decode (m : KMap) (old : SMTPConfig) : SMTPConfig × Bool :=
  let name := decodeString m "name" old.Name
  let sender := decodeString m "from" old.From
  let username := decodeString m "username" old.Username
  let password := decodeString m "password" old.Password
  let host := decodeString m "host" old.Host
  let port := decodeInt m "port" old.Port
  let tls := decodeBool m "tls" old.TLS
  ({ Name := name.1, From := sender.1, Username := username.1, Password := password.1,
     Host := host.1, Port := port.1, TLS := tls.1 },
   name.2 || sender.2 || username.2 || password.2 || host.2 || port.2 || tls.2)

def EmailConfig.decode (m : KMap) (old : EmailConfig) : EmailConfig × Bool :=
  let nickname := decodeString m "nickname" old.Nickname
  let smtp := decodeStruct m "smtp" SMTPConfig.decode old.SMTP
  ({ Nickname := nickname.1, SMTP := smtp.1 }, nickname.2 || smtp.2)

def CORSConfig.decode (m : KMap) (old : CORSConfig) : CORSConfig × Bool :=
  match m.get "origins" with
  | none => (old, false)
  | some (.list xs) => ({ Origins := (decodeStrings xs).1 }, (decodeStrings xs).2)
  | some _ => (old, true)

def MongoDBConfig.decode (m : KMap) (old : MongoDBConfig) : MongoDBConfig × Bool :=
  let uri := decodeString m "uri" old.URI
  let dbName := decodeString m "db_name" old.DBName
  ({ URI := uri.1, DBName := dbName.1 }, uri.2 || dbName.2)

def BadgerConfig.decode (m : KMap) (old : BadgerConfig) : BadgerConfig × Bool :=
  let dir := decodeString m "dir" old.Dir
  ({ Dir := dir.1 }, dir.2)

def DatabaseConfig.decode (m : KMap) (old : DatabaseConfig) : DatabaseConfig × Bool :=
  let mongodb := decodeStruct m "mongodb" MongoDBConfig.decode old.MongoDB
  let badger := decodeStruct m "badger" BadgerConfig.decode old.Badger
  ({ MongoDB := mongodb.1, Badger := badger.1 }, mongodb.2 || badger.2)

def OAuthConfig.decode (m : KMap) (old : OAuthConfig) : OAuthConfig × Bool :=
  let clientID := decodeString m "client_id" old.ClientID
  let clientSecret := decodeString m "client_secret" old.ClientSecret
  let redirectURL := decodeString m "redirect_url" old.RedirectURL
  ({ ClientID := clientID.1, ClientSecret := clientSecret.1, RedirectURL := redirectURL.1 },
   clientID.2 || clientSecret.2 || redirectURL.2)

def OAuthProviders.decode (m : KMap) (old : OAuthProviders) : OAuthProviders × Bool :=
  let google := decodeStruct m "google" OAuthConfig.decode old.Google
  let github := decodeStruct m "github" OAuthConfig.decode old.GitHub
  ({ Google := google.1, GitHub := github.1 }, google.2 || github.2)

/-- Decoding of the `emails` list. -/
def decodeEmails (m : KMap) (old : List EmailConfig) : List EmailConfig × Bool :=
  match m.get "emails" with
  | none => (old, false)
  | some (.list xs) => decodeStructs EmailConfig.decode default xs
  | some _ => (old, true)

/-- Decoding of the whole key tree into a `Config`, in place: the contents of the struct
afterwards, and whether some field met an error. -/
def Config.decode (m : KMap) (old : Config) : Config × Bool :=
  let server := decodeStruct m "server" ServerConfig.decode old.Server
  let swagger := decodeStruct m "swagger" SwaggerConfig.decode old.Swagger
  let stripe := decodeStruct m "stripe" StripeConfig.decode old.Stripe
  let maxmind := decodeStruct m "maxmind" MaxMindConfig.decode old.MaxMind
  let sentry := decodeStruct m "sentry" SentryConfig.decode old.Sentry
  let emails := decodeEmails m old.Emails
  let cors := decodeStruct m "cors" CORSConfig.decode old.CORS
  let database := decodeStruct m "database" DatabaseConfig.decode old.Database
  let site := decodeStruct m "site" SiteConfig.decode old.Site
  let oauth := decodeStruct m "oauth" OAuthProviders.decode old.OAuth
  ({ Server := server.1, Swagger := swagger.1, Stripe := stripe.1, MaxMind := maxmind.1,
     Sentry := sentry.1, Emails := emails.1, CORS := cors.1, Database := database.1,
     Site := site.1, OAuth := oauth.1 },
   server.2 || swagger.2 || stripe.2 || maxmind.2 || sentry.2 || emails.2 || cors.2 ||
     database.2 || site.2 || oauth.2)

/-- The decoder in the shape of `Runtime.unmarshal`: the contents of `Cfg` after the
decoding, with every field that decoded written, and the error if some field met one. -/
def decodeConfig (m : KMap) (old : Config) : Config × Option String :=
  ((Config.decode m old).1,
    if (Config.decode m old).2 then some "error(s) decoding" else none)

/-! ## Sample data used by closed instances -/

/-- A mail transport section that satisfies every rule, for host `h`. -/
def sampleSMTP (h : String) : SMTPConfig :=
  { Name := "mailer", From := "noreply@example.com", Username := "noreply@example.com",
    Password := "secret", Host := h, Port := 587, TLS := true }

/-- The two-profile list of the spec's lookup example: `primary` then `alerts`. -/
def sampleEmails : List EmailConfig :=
  [ { Nickname := "primary", SMTP := sampleSMTP "smtp.example.com" },
    { Nickname := "alerts", SMTP := sampleSMTP "alerts.example.com" } ]

/-- A configuration in which every field satisfies its rule. -/
def sampleConfig : Config :=
  { Server := { Host := "127.0.0.1", Port := 8080 }
    Swagger := { Web := false, Path := "/swagger" }
    Stripe := { SecretKey := "sk_test", Webhook := { Secret := "whsec" } }
    MaxMind := { GeoLite2 := { Country := "https://example.com/geo.mmdb" } }
    Sentry := { DSN := "https://key@sentry.example.com/1" }
    Emails := sampleEmails
    CORS := { Origins := ["https://example.com"] }
    Database := { MongoDB := { URI := "mongodb://localhost:27017", DBName := "auth5" },
                  Badger := { Dir := "/var/lib/auth5" } }
    Site := { Name := "Auth5", URL := "https://example.com", APIURL := "https://api.example.com" }
    OAuth := { Google := { ClientID := "gid", ClientSecret := "gsecret",
                           RedirectURL := "https://example.com/cb/google" },
               GitHub := { ClientID := "hid", ClientSecret := "hsecret",
                           RedirectURL := "https://example.com/cb/github" } } }

/-- Association list to key-tree map. -/
def KMap.ofList : List (String × KVal) → KMap
  | [] => .nil
  | (key, v) :: rest => .cons key v (KMap.ofList rest)

/-- List to key-tree list. -/
def KList.ofList : List KVal → KList
  | [] => .nil
  | v :: rest => .cons v (KList.ofList rest)

/-- The entries of a map other than the one of `key`. -/
def KMap.erase (key : String) : KMap → KMap
  | .nil => .nil
  | .cons k v rest => if k = key then KMap.erase key rest else .cons k v (KMap.erase key rest)

/-- The key tree of one mail profile of the sample settings file. -/
def sampleProfileTree (nickname host : String) : KVal :=
  .map (KMap.ofList [
    ("nickname", .str nickname),
    ("smtp", .map (KMap.ofList [
      ("name", .str "mailer"), ("from", .str "noreply@example.com"),
      ("username", .str "noreply@example.com"), ("password", .str "secret"),
      ("host", .str host), ("port", .int 587), ("tls", .bool true)]))])

/-- The `site` section of the sample settings file. -/
def sampleSiteTree : KMap :=
  KMap.ofList [("name", .str "Auth5"), ("url", .str "https://example.com"),
    ("api_url", .str "https://api.example.com")]

/-- The parsed sample settings file: the key tree of a file that spells out
`sampleConfig`, with `server.port = 8080`. -/
def sampleFile : KMap :=
  KMap.ofList [
    ("server", .map (KMap.ofList [("host", .str "127.0.0.1"), ("port", .int 8080)])),
    ("swagger", .map (KMap.ofList [("web", .bool false), ("path", .str "/swagger")])),
    ("stripe", .map (KMap.ofList [("secret_key", .str "sk_test"),
      ("webhook", .map (KMap.ofList [("secret", .str "whsec")]))])),
    ("maxmind", .map (KMap.ofList [
      ("geolite2", .map (KMap.ofList [("country", .str "https://example.com/geo.mmdb")]))])),
    ("sentry", .map (KMap.ofList [("dsn", .str "https://key@sentry.example.com/1")])),
    ("emails", .list (KList.ofList [
      sampleProfileTree "primary" "smtp.example.com",
      sampleProfileTree "alerts" "alerts.example.com"])),
    ("cors", .map (KMap.ofList [
      ("origins", .list (KList.ofList [.str "https://example.com"]))])),
    ("database", .map (KMap.ofList [
      ("mongodb", .map (KMap.ofList [("uri", .str "mongodb://localhost:27017"),
        ("db_name", .str "auth5")])),
      ("badger", .map (KMap.ofList [("dir", .str "/var/lib/auth5")]))])),
    ("site", .map sampleSiteTree),
    ("oauth", .map (KMap.ofList [
      ("google", .map (KMap.ofList [("client_id", .str "gid"),
        ("client_secret", .str "gsecret"),
        ("redirect_url", .str "https://example.com/cb/google")])),
      ("github", .map (KMap.ofList [("client_id", .str "hid"),
        ("client_secret", .str "hsecret"),
        ("redirect_url", .str "https://example.com/cb/github")]))]))]

/-- Format checks for the closed instances: coarse stand-ins for the library parsers
(a URL has a scheme followed by `://`, an IP address is made of digits, dots and colons,
an email address has an `@`). The theorems themselves hold for every `Formats`. -/
def sampleFormats : Formats :=
  { url := fun s => decide (List.IsInfix "://".data s.data) && !(s.data.contains ' ')
    ip := fun s => !s.data.isEmpty && s.data.all (fun c => c.isDigit || c = '.' || c = ':')
    email := fun s => s.data.contains '@' }

/-- A runtime for the closed instances: the settings file exists only at `auth5.yml`
and parses to `file`, the environment is `environ`, and decoding is `decodeConfig`. -/
def sampleRuntime (file : KMap) (environ : List (String × String)) : Runtime :=
  { environ := environ
    loadYaml := fun path =>
      if path = "auth5.yml" then .ok file else .error "open: no such file or directory"
    unmarshal := decodeConfig
    formats := sampleFormats }

/-! ## Vocabulary of the claims -/

/-- The run of `InitConfig` from `st` gets as far as validation with `cfg` in `Cfg`: the
settings file loads, and `k.Unmarshal` decodes the merged key tree to `cfg` without error. -/
def Loads (rt : Runtime) (st : State) (cfg : Config) : Prop :=
  ∃ layer, rt.loadYaml (configFile rt.environ) = .ok layer ∧
    rt.unmarshal
      (KMap.merge (envProviderRead rt.environ "AUTH5_" '.' (fun s => s))
        (KMap.merge layer st.k)) st.Cfg = (cfg, none)

/-- The list with `f` applied to its element at index `i` (unchanged when there is none). -/
def modifyNth {α : Type} (f : α → α) : Nat → List α → List α
  | _, [] => []
  | 0, x :: xs => f x :: xs
  | i + 1, x :: xs => x :: modifyNth f i xs

/-- The fields that carry `required` in `types.go` and hold a value (not a nested
struct); a field of a mail profile comes with the index of the profile in `Emails`.
These are the fields named by the rule table, and the profile's SMTP `Name`. -/
inductive RequiredField where
  | siteName
  | siteURL
  | siteAPIURL
  | serverHost
  | serverPort
  | swaggerPath
  | stripeSecretKey
  | stripeWebhookSecret
  | geoLite2Country
  | sentryDSN
  | emails
  | emailNickname (i : Nat)
  | smtpName (i : Nat)
  | smtpFrom (i : Nat)
  | smtpUsername (i : Nat)
  | smtpPassword (i : Nat)
  | smtpHost (i : Nat)
  | smtpPort (i : Nat)
  | corsOrigins
  | mongoURI
  | mongoDBName
  | badgerDir
  | googleClientID
  | googleClientSecret
  | googleRedirectURL
  | githubClientID
  | githubClientSecret
  | githubRedirectURL
deriving DecidableEq, Repr

/-- The configuration with one required field set to the zero value of its type. -/
def RequiredField.clear : RequiredField → Config → Config
  | .siteName, c => { c with Site := { c.Site with Name := "" } }
  | .siteURL, c => { c with Site := { c.Site with URL := "" } }
  | .siteAPIURL, c => { c with Site := { c.Site with APIURL := "" } }
  | .serverHost, c => { c with Server := { c.Server with Host := "" } }
  | .serverPort, c => { c with Server := { c.Server with Port := 0 } }
  | .swaggerPath, c => { c with Swagger := { c.Swagger with Path := "" } }
  | .stripeSecretKey, c => { c with Stripe := { c.Stripe with SecretKey := "" } }
  | .stripeWebhookSecret, c => { c with Stripe := { c.Stripe with Webhook := { Secret := "" } } }
  | .geoLite2Country, c => { c with MaxMind := { GeoLite2 := { Country := "" } } }
  | .sentryDSN, c => { c with Sentry := { DSN := "" } }
  | .emails, c => { c with Emails := [] }
  | .emailNickname i, c =>
    { c with Emails := modifyNth (fun e => { e with Nickname := "" }) i c.Emails }
  | .smtpName i, c =>
    { c with Emails := modifyNth (fun e => { e with SMTP := { e.SMTP with Name := "" } }) i c.Emails }
  | .smtpFrom i, c =>
    { c with Emails := modifyNth (fun e => { e with SMTP := { e.SMTP with From := "" } }) i c.Emails }
  | .smtpUsername i, c =>
    { c with Emails :=
        modifyNth (fun e => { e with SMTP := { e.SMTP with Username := "" } }) i c.Emails }
  | .smtpPassword i, c =>
    { c with Emails :=
        modifyNth (fun e => { e with SMTP := { e.SMTP with Password := "" } }) i c.Emails }
  | .smtpHost i, c =>
    { c with Emails := modifyNth (fun e => { e with SMTP := { e.SMTP with Host := "" } }) i c.Emails }
  | .smtpPort i, c =>
    { c with Emails := modifyNth (fun e => { e with SMTP := { e.SMTP with Port := 0 } }) i c.Emails }
  | .corsOrigins, c => { c with CORS := { Origins := [] } }
  | .mongoURI, c =>
    { c with Database := { c.Database with MongoDB := { c.Database.MongoDB with URI := "" } } }
  | .mongoDBName, c =>
    { c with Database := { c.Database with MongoDB := { c.Database.MongoDB with DBName := "" } } }
  | .badgerDir, c => { c with Database := { c.Database with Badger := { Dir := "" } } }
  | .googleClientID, c =>
    { c with OAuth := { c.OAuth with Google := { c.OAuth.Google with ClientID := "" } } }
  | .googleClientSecret, c =>
    { c with OAuth := { c.OAuth with Google := { c.OAuth.Google with ClientSecret := "" } } }
  | .googleRedirectURL, c =>
    { c with OAuth := { c.OAuth with Google := { c.OAuth.Google with RedirectURL := "" } } }
  | .githubClientID, c =>
    { c with OAuth := { c.OAuth with GitHub := { c.OAuth.GitHub with ClientID := "" } } }
  | .githubClientSecret, c =>
    { c with OAuth := { c.OAuth with GitHub := { c.OAuth.GitHub with ClientSecret := "" } } }
  | .githubRedirectURL, c =>
    { c with OAuth := { c.OAuth with GitHub := { c.OAuth.GitHub with RedirectURL := "" } } }

/-- The field exists in the configuration: a profile field needs its profile. -/
def RequiredField.inConfig : RequiredField → Config → Prop
  | .emailNickname i, c => i < c.Emails.length
  | .smtpName i, c => i < c.Emails.length
  | .smtpFrom i, c => i < c.Emails.length
  | .smtpUsername i, c => i < c.Emails.length
  | .smtpPassword i, c => i < c.Emails.length
  | .smtpHost i, c => i < c.Emails.length
  | .smtpPort i, c => i < c.Emails.length
  | _, _ => True

/-- The configuration with `server.port` set to `p`. -/
def withPort (c : Config) (p : Int) : Config :=
  { c with Server := { c.Server with Port := p } }

/-- The sample settings file without the key `site.name`. -/
def sampleFileNoSiteName : KMap :=
  KMap.set "site" (.map (KMap.erase "name" sampleSiteTree)) sampleFile

/-- The sample settings file with `server.port: 0`. -/
def sampleFilePortZero : KMap :=
  KMap.set "server" (.map (KMap.ofList [("host", .str "127.0.0.1"), ("port", .int 0)]))
    sampleFile

/-- The sample configuration with the SMTP `name` of its second profile left empty. -/
def sampleConfigNoSMTPName : Config :=
  RequiredField.clear (.smtpName 1) sampleConfig

/-- The environment of the overlay example: `AUTH5_SERVER.PORT=9090`. -/
def overlayEnviron : List (String × String) :=
  [("HOME", "/root"), ("AUTH5_SERVER.PORT", "9090")]

/-- The process state in which a call of `InitConfig` ends, by return or by `log.Fatal`. -/
def Outcome.state : Outcome → State
  | .returned s => s
  | .fatal _ s => s

/-- The sample settings file with `server.port: eighty`, a string that is no number. -/
def sampleFilePortText : KMap :=
  KMap.set "server" (.map (KMap.ofList [("host", .str "127.0.0.1"), ("port", .str "eighty")]))
    sampleFile

/-- A runtime for the closed instances whose settings file exists only at `path`. -/
def sampleRuntimeAt (path : String) (file : KMap) (environ : List (String × String)) :
    Runtime :=
  { environ := environ
    loadYaml := fun p =>
      if p = path then .ok file else .error "open: no such file or directory"
    unmarshal := decodeConfig
    formats := sampleFormats }

/-- The key tree of `k` after the two `k.Load` calls of `InitConfig`, when the settings
file parsed to `layer`: the file layer merged into `k`, then the environment layer. -/
def loadedKeys (rt : Runtime) (st : State) (layer : KMap) : KMap :=
  KMap.merge (envProviderRead rt.environ "AUTH5_" '.' (fun s => s)) (KMap.merge layer st.k)

/-! ## helper.go: the section getters

Each getter is `return &Cfg.X`: it reads one section of `Cfg` and assigns nothing. A call
is embedded as the section it returns together with the process state after the call. -/

def GetSiteConfig (st : State) : SiteConfig × State :=
  (st.Cfg.Site, st)

def GetServerConfig (st : State) : ServerConfig × State :=
  (st.Cfg.Server, st)

def GetSwaggerConfig (st : State) : SwaggerConfig × State :=
  (st.Cfg.Swagger, st)

def GetStripeConfig (st : State) : StripeConfig × State :=
  (st.Cfg.Stripe, st)

def GetMaxMind (st : State) : MaxMindConfig × State :=
  (st.Cfg.MaxMind, st)

def GetSentryConfig (st : State) : SentryConfig × State :=
  (st.Cfg.Sentry, st)

def GetCORSConfig (st : State) : CORSConfig × State :=
  (st.Cfg.CORS, st)

def GetDatabaseConfig (st : State) : DatabaseConfig × State :=
  (st.Cfg.Database, st)

def GetOauthConfig (st : State) : OAuthProviders × State :=
  (st.Cfg.OAuth, st)

/-- Go `os.LookupEnv(name)`: the value of the variable when it is set, `none` when it is
not; `os.Getenv` is this lookup with `""` for an unset variable. -/
def LookupEnv (environ : List (String × String)) (name : String) : Option String :=
  (environ.find? (fun kv => kv.1 = name)).map (fun kv => kv.2)

/-! ## Lemmas on the lookup loop -/

theorem scan_of_no_match (n : String) (l : List EmailConfig)
    (h : ∀ e ∈ l, e.Nickname ≠ n) :
    GetSMTPConfig.scan n l = .error ("SMTP configuration not found for nickname: " ++ n) := by
  induction l with
  | nil => rfl
  | cons e rest ih =>
    have he : e.Nickname ≠ n := h e (List.mem_cons_self _ _)
    have hr : ∀ x ∈ rest, x.Nickname ≠ n := fun x hx => h x (List.mem_cons_of_mem _ hx)
    simp [GetSMTPConfig.scan, he, ih hr]

theorem scan_append_hit (n : String) (pre : List EmailConfig) (e : EmailConfig)
    (post : List EmailConfig) (hpre : ∀ x ∈ pre, x.Nickname ≠ n) (he : e.Nickname = n) :
    GetSMTPConfig.scan n (pre ++ e :: post) = .ok e.SMTP := by
  induction pre with
  | nil => simp [GetSMTPConfig.scan, he]
  | cons x xs ih =>
    have hx : x.Nickname ≠ n := hpre x (List.mem_cons_self _ _)
    have hxs : ∀ y ∈ xs, y.Nickname ≠ n := fun y hy => hpre y (List.mem_cons_of_mem _ hy)
    simp [GetSMTPConfig.scan, hx, ih hxs]

theorem exists_first_match (n : String) (l : List EmailConfig)
    (h : ∃ e ∈ l, e.Nickname = n) :
    ∃ pre e post, l = pre ++ e :: post ∧ (∀ x ∈ pre, x.Nickname ≠ n) ∧ e.Nickname = n := by
  induction l with
  | nil => obtain ⟨e, he, _⟩ := h; cases he
  | cons a rest ih =>
    by_cases ha : a.Nickname = n
    · exact ⟨[], a, rest, rfl, by simp, ha⟩
    · obtain ⟨e, he, hen⟩ := h
      have hrest : ∃ e ∈ rest, e.Nickname = n := by
        rcases List.mem_cons.mp he with h1 | h1
        · exact absurd (h1 ▸ hen) ha
        · exact ⟨e, h1, hen⟩
      obtain ⟨pre, e', post, hl, hpre, he'⟩ := ih hrest
      refine ⟨a :: pre, e', post, by simp [hl], ?_, he'⟩
      intro x hx
      rcases List.mem_cons.mp hx with h1 | h1
      · exact h1 ▸ ha
      · exact hpre x h1

theorem scan_error_no_match (n : String) (l : List EmailConfig) (msg : String)
    (h : GetSMTPConfig.scan n l = .error msg) : ∀ e ∈ l, e.Nickname ≠ n := by
  intro e he hen
  obtain ⟨pre, e', post, hl, hpre, he'⟩ := exists_first_match n l ⟨e, he, hen⟩
  rw [hl, scan_append_hit n pre e' post hpre he'] at h
  cases h

/-! ## Lemmas on validation -/

theorem checkString_nil (F : Formats) (field : String) (tags : List StrTag) (v : String) :
    checkString F field tags v = [] ↔ ∀ t ∈ tags, t.holds F v = true := by
  unfold checkString
  split <;> simp_all

theorem checkInt_nil (field : String) (tags : List IntTag) (v : Int) :
    checkInt field tags v = [] ↔ ∀ t ∈ tags, t.holds v = true := by
  unfold checkInt
  split <;> simp_all

theorem checkSlice_nil {α : Type} (field : String) (tags : List SliceTag)
    (dive : α → List FieldError) (v : List α) :
    checkSlice field tags dive v = [] ↔
      (∀ t ∈ tags, t.holds v = true) ∧ ∀ x ∈ v, dive x = [] := by
  unfold checkSlice
  split <;> simp_all

theorem required_string (F : Formats) (field : String) (v : String) :
    checkString F field [.required] v = [] ↔ v ≠ "" := by
  simp [checkString_nil, StrTag.holds]

theorem required_url (F : Formats) (field : String) (v : String) :
    checkString F field [.required, .url] v = [] ↔ (v ≠ "" ∧ F.url v = true) := by
  simp [checkString_nil, StrTag.holds]

theorem required_ip (F : Formats) (field : String) (v : String) :
    checkString F field [.required, .ip] v = [] ↔ (v ≠ "" ∧ F.ip v = true) := by
  simp [checkString_nil, StrTag.holds]

theorem required_email (F : Formats) (field : String) (v : String) :
    checkString F field [.required, .email] v = [] ↔ (v ≠ "" ∧ F.email v = true) := by
  simp [checkString_nil, StrTag.holds]

theorem port_tags (field : String) (p : Int) :
    checkInt field [.required, .min 1, .max 65535] p = [] ↔ (1 ≤ p ∧ p ≤ 65535) := by
  simp only [checkInt_nil, List.mem_cons, List.mem_singleton, forall_eq_or_imp, forall_eq,
    IntTag.holds, decide_eq_true_eq, List.not_mem_nil, false_implies, implies_true, and_true]
  constructor
  · rintro ⟨_, h1, h2⟩; exact ⟨h1, h2⟩
  · rintro ⟨h1, h2⟩; exact ⟨by omega, h1, h2⟩

theorem nonempty_tags {α : Type} (field : String) (dive : α → List FieldError) (v : List α) :
    checkSlice field [.required, .min 1] dive v = [] ↔ (v ≠ [] ∧ ∀ x ∈ v, dive x = []) := by
  rw [checkSlice_nil]
  cases v <;> simp [SliceTag.holds]

theorem SiteConfig_validate_nil (F : Formats) (c : SiteConfig) :
    c.validate F = [] ↔ SiteRule F c := by
  simp only [SiteConfig.validate, List.append_eq_nil, required_string, required_url, SiteRule,
    and_assoc]

theorem ServerConfig_validate_nil (F : Formats) (c : ServerConfig) :
    c.validate F = [] ↔ ServerRule F c := by
  simp only [ServerConfig.validate, List.append_eq_nil, required_ip, port_tags, ServerRule]

theorem StripeConfig_validate_nil (F : Formats) (c : StripeConfig) :
    c.validate F = [] ↔ StripeRule c := by
  simp only [StripeConfig.validate, WebhookConfig.validate, List.append_eq_nil,
    required_string, StripeRule]

theorem MaxMindConfig_validate_nil (F : Formats) (c : MaxMindConfig) :
    c.validate F = [] ↔ MaxMindRule F c := by
  simp only [MaxMindConfig.validate, GeoLite2Config.validate, required_url, MaxMindRule]

theorem EmailConfig_validate_nil (F : Formats) (e : EmailConfig) :
    e.validate F = [] ↔ MailProfileRule F e ∧ e.SMTP.Name ≠ "" := by
  simp only [EmailConfig.validate, SMTPConfig.validate, List.append_eq_nil, required_string,
    required_email, port_tags, MailProfileRule]
  tauto

theorem Emails_validate_nil (F : Formats) (l : List EmailConfig) :
    checkSlice "Emails" [.required, .min 1] (EmailConfig.validate F) l = [] ↔
      EmailsRule F l ∧ ∀ e ∈ l, e.SMTP.Name ≠ "" := by
  rw [nonempty_tags, EmailsRule]
  constructor
  · rintro ⟨h1, h2⟩
    exact ⟨⟨h1, fun e he => ((EmailConfig_validate_nil F e).mp (h2 e he)).1⟩,
      fun e he => ((EmailConfig_validate_nil F e).mp (h2 e he)).2⟩
  · rintro ⟨⟨h1, h2⟩, h3⟩
    exact ⟨h1, fun e he => (EmailConfig_validate_nil F e).mpr ⟨h2 e he, h3 e he⟩⟩

theorem CORSConfig_validate_nil (F : Formats) (c : CORSConfig) :
    c.validate F = [] ↔ CORSRule F c := by
  rw [CORSConfig.validate, nonempty_tags, CORSRule]
  simp [checkString_nil, StrTag.holds]

theorem DatabaseConfig_validate_nil (F : Formats) (c : DatabaseConfig) :
    c.validate F = [] ↔ DatabaseRule c := by
  simp only [DatabaseConfig.validate, MongoDBConfig.validate, BadgerConfig.validate,
    List.append_eq_nil, required_string, DatabaseRule]
  tauto

theorem OAuthConfig_validate_nil (F : Formats) (c : OAuthConfig) :
    c.validate F = [] ↔ OAuthRule F c := by
  simp only [OAuthConfig.validate, List.append_eq_nil, required_string, required_url,
    OAuthRule, and_assoc]

/-- The configurations that `validate.Struct` accepts are those that satisfy the
specification's rule table and in which every mail profile has a non-empty SMTP name. -/
theorem Config_validate_nil (F : Formats) (c : Config) :
    c.validate F = [] ↔ SpecTable F c ∧ ∀ e ∈ c.Emails, e.SMTP.Name ≠ "" := by
  simp only [Config.validate, OAuthProviders.validate, SwaggerConfig.validate,
    SentryConfig.validate, List.append_eq_nil, required_string,
    SiteConfig_validate_nil, ServerConfig_validate_nil, StripeConfig_validate_nil,
    MaxMindConfig_validate_nil, Emails_validate_nil, CORSConfig_validate_nil,
    DatabaseConfig_validate_nil, OAuthConfig_validate_nil, SpecTable]
  tauto

/-! ## Lemmas on `InitConfig` -/

theorem validateStruct_eq_none (F : Formats) (c : Config) :
    validateStruct F c = none ↔ c.validate F = [] := by
  unfold validateStruct
  split <;> simp_all

theorem validateStruct_ne_none (F : Formats) (c : Config) :
    validateStruct F c ≠ none ↔ c.validate F ≠ [] :=
  not_congr (validateStruct_eq_none F c)

/-- Acceptance by `validate.Struct`, in terms of the rule table. -/
theorem validateStruct_accepts (F : Formats) (c : Config) :
    validateStruct F c = none ↔ SpecTable F c ∧ ∀ e ∈ c.Emails, e.SMTP.Name ≠ "" := by
  rw [validateStruct_eq_none, Config_validate_nil]

theorem Loads_fatal (rt : Runtime) (st : State) (cfg : Config) (h : Loads rt st cfg)
    (hv : validateStruct rt.formats cfg ≠ none) :
    ∃ s, InitConfig rt st = .fatal "Configuration validation failed" s ∧ s.Cfg = cfg := by
  obtain ⟨layer, hl, hu⟩ := h
  unfold InitConfig
  simp only [hl, hu]
  cases hvs : validateStruct rt.formats cfg with
  | none => exact absurd hvs hv
  | some errs => exact ⟨_, rfl, rfl⟩

theorem Loads_returned (rt : Runtime) (st : State) (cfg : Config) (h : Loads rt st cfg)
    (hv : validateStruct rt.formats cfg = none) :
    ∃ s, InitConfig rt st = .returned s ∧ s.Cfg = cfg := by
  obtain ⟨layer, hl, hu⟩ := h
  unfold InitConfig
  simp only [hl, hu, hv]
  exact ⟨_, rfl, rfl⟩

theorem InitConfig_returned_valid (rt : Runtime) (st s : State)
    (h : InitConfig rt st = .returned s) : validateStruct rt.formats s.Cfg = none := by
  unfold InitConfig at h
  cases hl : rt.loadYaml (configFile rt.environ) with
  | error e => rw [hl] at h; cases h
  | ok layer =>
    rw [hl] at h
    dsimp only at h
    generalize hu : rt.unmarshal _ st.Cfg = r at h
    obtain ⟨cfg, err⟩ := r
    cases err with
    | some e => cases h
    | none =>
      dsimp only at h
      cases hv : validateStruct rt.formats cfg with
      | some errs => rw [hv] at h; cases h
      | none =>
        rw [hv] at h
        have h2 := congrArg (fun o => match o with
          | Outcome.returned t => t.Cfg
          | Outcome.fatal _ t => t.Cfg) h
        dsimp only at h2
        rw [← h2]
        exact hv

theorem modifyNth_mem {α : Type} (f : α → α) (i : Nat) (l : List α) (h : i < l.length) :
    ∃ y, f y ∈ modifyNth f i l := by
  induction l generalizing i with
  | nil => simp at h
  | cons x xs ih =>
    cases i with
    | zero => exact ⟨x, by simp [modifyNth]⟩
    | succ j =>
      obtain ⟨y, hy⟩ := ih j (by simpa using h)
      exact ⟨y, by simp [modifyNth, hy]⟩

/-- Equal fatal outcomes carry the same message. -/
theorem Outcome.fatal_msg_eq {m1 m2 : String} {s1 s2 : State}
    (h : Outcome.fatal m1 s1 = Outcome.fatal m2 s2) : m1 = m2 := by
  have h2 := congrArg (fun o => match o with
    | Outcome.returned _ => ""
    | Outcome.fatal m _ => m) h
  exact h2

theorem InitConfig_unmarshal_error (rt : Runtime) (st : State) (layer : KMap) (cfg : Config)
    (e : String) (hl : rt.loadYaml (configFile rt.environ) = .ok layer)
    (hu : rt.unmarshal (loadedKeys rt st layer) st.Cfg = (cfg, some e)) :
    InitConfig rt st =
      .fatal "Error unmarshalling config" { k := loadedKeys rt st layer, Cfg := cfg } := by
  unfold loadedKeys at hu
  unfold InitConfig loadedKeys
  simp only [hl, hu]

theorem InitConfig_state_of_loaded (rt : Runtime) (st : State) (layer : KMap)
    (hl : rt.loadYaml (configFile rt.environ) = .ok layer) :
    (InitConfig rt st).state =
      { k := loadedKeys rt st layer,
        Cfg := (rt.unmarshal (loadedKeys rt st layer) st.Cfg).1 } := by
  unfold InitConfig loadedKeys
  simp only [hl]
  generalize rt.unmarshal _ st.Cfg = r
  obtain ⟨cfg, err⟩ := r
  cases err with
  | some e => rfl
  | none =>
    dsimp only
    cases validateStruct rt.formats cfg <;> rfl

theorem InitConfig_not_load_fatal (rt : Runtime) (st : State) (layer : KMap)
    (hl : rt.loadYaml (configFile rt.environ) = .ok layer) (s : State) :
    InitConfig rt st ≠ .fatal "Error loading config file" s := by
  unfold InitConfig
  simp only [hl]
  generalize rt.unmarshal _ st.Cfg = r
  obtain ⟨cfg, err⟩ := r
  cases err with
  | some e =>
    intro h
    exact absurd (Outcome.fatal_msg_eq h) (by decide)
  | none =>
    dsimp only
    cases validateStruct rt.formats cfg with
    | some errs =>
      intro h
      exact absurd (Outcome.fatal_msg_eq h) (by decide)
    | none =>
      intro h
      cases h

theorem InitConfig_returned_Loads (rt : Runtime) (st s : State)
    (h : InitConfig rt st = .returned s) : Loads rt st s.Cfg := by
  unfold InitConfig at h
  cases hl : rt.loadYaml (configFile rt.environ) with
  | error e => rw [hl] at h; cases h
  | ok layer =>
    rw [hl] at h
    dsimp only at h
    refine ⟨layer, hl, ?_⟩
    generalize rt.unmarshal _ st.Cfg = r at h ⊢
    obtain ⟨cfg, err⟩ := r
    cases err with
    | some e => cases h
    | none =>
      dsimp only at h
      cases hv : validateStruct rt.formats cfg with
      | some errs => rw [hv] at h; cases h
      | none =>
        rw [hv] at h
        have h2 := congrArg (fun o => match o with
          | Outcome.returned t => t.Cfg
          | Outcome.fatal _ t => t.Cfg) h
        dsimp only at h2
        rw [← h2]

/-! ## Lemmas on the environment -/

theorem Getenv_eq_LookupEnv (environ : List (String × String)) (name : String) :
    Getenv environ name = (LookupEnv environ name).getD "" := by
  unfold Getenv LookupEnv
  cases environ.find? (fun kv => kv.1 = name) <;> rfl

theorem configFile_of_set (environ : List (String × String)) (v : String)
    (h : LookupEnv environ "AUTH5_CONFIG" = some v) (hv : v ≠ "") : configFile environ = v := by
  have hg : Getenv environ "AUTH5_CONFIG" = v := by
    rw [Getenv_eq_LookupEnv, h]; rfl
  unfold configFile
  rw [hg, if_neg hv]

theorem configFile_of_unset_or_empty (environ : List (String × String))
    (h : LookupEnv environ "AUTH5_CONFIG" = none ∨ LookupEnv environ "AUTH5_CONFIG" = some "") :
    configFile environ = "auth5.yml" := by
  have hg : Getenv environ "AUTH5_CONFIG" = "" := by
    rw [Getenv_eq_LookupEnv]
    rcases h with h | h <;> rw [h] <;> rfl
  unfold configFile
  rw [hg, if_pos rfl]

/-! ## Claims -/

/-- C1: whenever some element of `Cfg.Emails` has `Nickname` equal to `n`,
`GetSMTPConfig n` returns (with a nil error) the SMTP section of the first such
element in list order: the list splits as `pre ++ e :: post` where no element of
`pre` has nickname `n`, `e` has it, and the result is `e.SMTP`. -/
theorem C1_GetSMTPConfig_first_match (Cfg : Config) (n : String)
    (h : ∃ e ∈ Cfg.Emails, e.Nickname = n) :
    ∃ pre e post, Cfg.Emails = pre ++ e :: post ∧ (∀ x ∈ pre, x.Nickname ≠ n) ∧
      e.Nickname = n ∧ GetSMTPConfig Cfg n = .ok e.SMTP := by
  obtain ⟨pre, e, post, hl, hpre, he⟩ := exists_first_match n Cfg.Emails h
  refine ⟨pre, e, post, hl, hpre, he, ?_⟩
  unfold GetSMTPConfig
  rw [hl]
  exact scan_append_hit n pre e post hpre he

/-- Instance of C1 on the sample configuration with the nickname `alerts`. -/
theorem C1_GetSMTPConfig_first_match_witness :
    (∃ e ∈ sampleConfig.Emails, e.Nickname = "alerts") ∧
    ∃ pre e post, sampleConfig.Emails = pre ++ e :: post ∧
      (∀ x ∈ pre, x.Nickname ≠ "alerts") ∧
      e.Nickname = "alerts" ∧ GetSMTPConfig sampleConfig "alerts" = .ok e.SMTP :=
  have h : ∃ e ∈ sampleConfig.Emails, e.Nickname = "alerts" :=
    ⟨{ Nickname := "alerts", SMTP := sampleSMTP "alerts.example.com" }, by
      simp [sampleConfig, sampleEmails], rfl⟩
  ⟨h, C1_GetSMTPConfig_first_match sampleConfig "alerts" h⟩

/-- C2: `GetSMTPConfig n` returns an error exactly when no element of `Cfg.Emails`
has `Nickname` equal to `n`, and the error message is then
`"SMTP configuration not found for nickname: "` followed by `n` (so it contains `n`). -/
theorem C2_GetSMTPConfig_not_found (Cfg : Config) (n : String) :
    ((∃ msg, GetSMTPConfig Cfg n = .error msg) ↔ ∀ e ∈ Cfg.Emails, e.Nickname ≠ n) ∧
    (∀ msg, GetSMTPConfig Cfg n = .error msg →
      msg = "SMTP configuration not found for nickname: " ++ n ∧
      List.IsInfix n.data msg.data) := by
  refine ⟨⟨?_, ?_⟩, ?_⟩
  · rintro ⟨msg, hmsg⟩
    exact scan_error_no_match n Cfg.Emails msg hmsg
  · intro h
    exact ⟨_, scan_of_no_match n Cfg.Emails h⟩
  · intro msg hmsg
    have hno := scan_error_no_match n Cfg.Emails msg hmsg
    have heq := scan_of_no_match n Cfg.Emails hno
    unfold GetSMTPConfig at hmsg
    rw [heq] at hmsg
    injection hmsg with hmsg
    subst hmsg
    refine ⟨rfl, ?_⟩
    rw [String.data_append]
    exact (List.suffix_append _ _).isInfix

/-- Instance of C2: on the sample list (`primary`, `alerts`) the nickname `missing`
yields the not-found error naming `missing`. -/
theorem C2_GetSMTPConfig_not_found_witness :
    GetSMTPConfig sampleConfig "missing" =
      .error "SMTP configuration not found for nickname: missing" :=
  have h := (C2_GetSMTPConfig_not_found sampleConfig "missing").1.2 (by
    simp [sampleConfig, sampleEmails])
  by
    obtain ⟨msg, hmsg⟩ := h
    rw [hmsg, ((C2_GetSMTPConfig_not_found sampleConfig "missing").2 msg hmsg).1]
    rfl

/-- C3, evaluated at the input of the claim's example: with the sample settings file
(`server.port = 8080`) and the environment variable `AUTH5_SERVER.PORT=9090`,
`InitConfig` returns and the server port of `Cfg` is 8080, not 9090. The variable sits
in the key tree under `AUTH5_SERVER.PORT`, its `AUTH5_` still in place, and the key
`server.port` still holds the value of the file. -/
theorem C3_env_overlay_keeps_file_port :
    ∃ s, InitConfig (sampleRuntime sampleFile overlayEnviron) initialState = .returned s ∧
      s.Cfg.Server.Port = 8080 ∧
      s.Cfg.Server.Port ≠ 9090 ∧
      s.k.getPath ["server", "port"] = some (.int 8080) ∧
      s.k.getPath ["AUTH5_SERVER", "PORT"] = some (.str "9090") :=
  ⟨_, rfl, rfl, by decide, rfl, rfl⟩

/-- C4: take a configuration that passes validation and one required field present in
it; with that field set to its zero value the configuration fails validation, and a run
of `InitConfig` that decodes this configuration ends in the fatal path
"Configuration validation failed". -/
theorem C4_required_field_omitted_is_fatal (rt : Runtime) (st : State) (c : Config)
    (f : RequiredField) (_hvalid : validateStruct rt.formats c = none)
    (hf : f.inConfig c) :
    validateStruct rt.formats (f.clear c) ≠ none ∧
    (Loads rt st (f.clear c) →
      ∃ s, InitConfig rt st = .fatal "Configuration validation failed" s) := by
  have key : validateStruct rt.formats (f.clear c) ≠ none := by
    intro h
    rw [validateStruct_accepts] at h
    obtain ⟨⟨hsite, hserver, hsw, hstripe, hmm, hsentry, hemails, hcors, hdb, hgoogle,
      hgithub⟩, hname⟩ := h
    cases f with
    | siteName => simp [RequiredField.clear, SiteRule] at hsite
    | siteURL => simp [RequiredField.clear, SiteRule] at hsite
    | siteAPIURL => simp [RequiredField.clear, SiteRule] at hsite
    | serverHost => simp [RequiredField.clear, ServerRule] at hserver
    | serverPort => simp [RequiredField.clear, ServerRule] at hserver
    | swaggerPath => simp [RequiredField.clear] at hsw
    | stripeSecretKey => simp [RequiredField.clear, StripeRule] at hstripe
    | stripeWebhookSecret => simp [RequiredField.clear, StripeRule] at hstripe
    | geoLite2Country => simp [RequiredField.clear, MaxMindRule] at hmm
    | sentryDSN => simp [RequiredField.clear] at hsentry
    | emails => simp [RequiredField.clear, EmailsRule] at hemails
    | emailNickname i =>
      obtain ⟨y, hy⟩ := modifyNth_mem (fun e => { e with Nickname := "" }) i c.Emails hf
      have := hemails.2 _ hy
      simp [MailProfileRule] at this
    | smtpName i =>
      obtain ⟨y, hy⟩ := modifyNth_mem
        (fun e : EmailConfig => { e with SMTP := { e.SMTP with Name := "" } }) i c.Emails hf
      have := hname _ hy
      simp at this
    | smtpFrom i =>
      obtain ⟨y, hy⟩ := modifyNth_mem
        (fun e : EmailConfig => { e with SMTP := { e.SMTP with From := "" } }) i c.Emails hf
      have := hemails.2 _ hy
      simp [MailProfileRule] at this
    | smtpUsername i =>
      obtain ⟨y, hy⟩ := modifyNth_mem
        (fun e : EmailConfig => { e with SMTP := { e.SMTP with Username := "" } }) i
        c.Emails hf
      have := hemails.2 _ hy
      simp [MailProfileRule] at this
    | smtpPassword i =>
      obtain ⟨y, hy⟩ := modifyNth_mem
        (fun e : EmailConfig => { e with SMTP := { e.SMTP with Password := "" } }) i
        c.Emails hf
      have := hemails.2 _ hy
      simp [MailProfileRule] at this
    | smtpHost i =>
      obtain ⟨y, hy⟩ := modifyNth_mem
        (fun e : EmailConfig => { e with SMTP := { e.SMTP with Host := "" } }) i c.Emails hf
      have := hemails.2 _ hy
      simp [MailProfileRule] at this
    | smtpPort i =>
      obtain ⟨y, hy⟩ := modifyNth_mem
        (fun e : EmailConfig => { e with SMTP := { e.SMTP with Port := 0 } }) i c.Emails hf
      have := hemails.2 _ hy
      simp [MailProfileRule] at this
    | corsOrigins => simp [RequiredField.clear, CORSRule] at hcors
    | mongoURI => simp [RequiredField.clear, DatabaseRule] at hdb
    | mongoDBName => simp [RequiredField.clear, DatabaseRule] at hdb
    | badgerDir => simp [RequiredField.clear, DatabaseRule] at hdb
    | googleClientID => simp [RequiredField.clear, OAuthRule] at hgoogle
    | googleClientSecret => simp [RequiredField.clear, OAuthRule] at hgoogle
    | googleRedirectURL => simp [RequiredField.clear, OAuthRule] at hgoogle
    | githubClientID => simp [RequiredField.clear, OAuthRule] at hgithub
    | githubClientSecret => simp [RequiredField.clear, OAuthRule] at hgithub
    | githubRedirectURL => simp [RequiredField.clear, OAuthRule] at hgithub
  refine ⟨key, fun hl => ?_⟩
  obtain ⟨s, hs, _⟩ := Loads_fatal rt st _ hl key
  exact ⟨s, hs⟩

/-- Instance of C4: the sample configuration passes validation; with `site.name` left
out of the settings file the run of `InitConfig` decodes the sample configuration with
an empty site name and ends in the fatal path. -/
theorem C4_required_field_omitted_is_fatal_witness :
    validateStruct sampleFormats sampleConfig = none ∧
    Loads (sampleRuntime sampleFileNoSiteName []) initialState
      (RequiredField.clear .siteName sampleConfig) ∧
    ∃ s, InitConfig (sampleRuntime sampleFileNoSiteName []) initialState =
      .fatal "Configuration validation failed" s :=
  have hv : validateStruct (sampleRuntime sampleFileNoSiteName []).formats sampleConfig = none :=
    by decide
  have hl : Loads (sampleRuntime sampleFileNoSiteName []) initialState
      (RequiredField.clear .siteName sampleConfig) := ⟨sampleFileNoSiteName, rfl, rfl⟩
  ⟨hv, hl,
    (C4_required_field_omitted_is_fatal (sampleRuntime sampleFileNoSiteName []) initialState
      sampleConfig .siteName hv trivial).2 hl⟩

/-- C5 as stated fails: in the sample configuration with the SMTP `name` of the second
mail profile left empty every row of the specification's rule table holds, yet
validation rejects the configuration, because `types.go` also marks the SMTP `Name` of a
profile as `required`. -/
theorem C5_spec_table_not_sufficient :
    SpecTable sampleFormats sampleConfigNoSMTPName ∧
    validateStruct sampleFormats sampleConfigNoSMTPName = some ["Name"] := by
  refine ⟨?_, by decide⟩
  have h : validateStruct sampleFormats sampleConfig = none := by decide
  have ht := ((validateStruct_accepts sampleFormats sampleConfig).mp h).1
  obtain ⟨hsite, hserver, hsw, hstripe, hmm, hsentry, hemails, hcors, hdb, hoauth⟩ := ht
  refine ⟨hsite, hserver, hsw, hstripe, hmm, hsentry, ⟨by decide, ?_⟩, hcors, hdb, hoauth⟩
  intro e he
  have hmem : e = { Nickname := "primary", SMTP := sampleSMTP "smtp.example.com" } ∨
      e = { Nickname := "alerts", SMTP := { sampleSMTP "alerts.example.com" with Name := "" } } := by
    simpa [sampleConfigNoSMTPName, RequiredField.clear, sampleConfig, sampleEmails,
      modifyNth] using he
  rcases hmem with h1 | h1
  · rw [h1]
    exact hemails.2 _ (by simp [sampleConfig, sampleEmails])
  · have h2 := hemails.2 { Nickname := "alerts", SMTP := sampleSMTP "alerts.example.com" }
      (by simp [sampleConfig, sampleEmails])
    rw [h1]
    exact h2

/-- C5, amended: a configuration that satisfies every row of the specification's rule
table and in which every mail profile has a non-empty SMTP `name` is accepted by
validation; a run of `InitConfig` that decodes it returns (no fatal path) and leaves
exactly this configuration in `Cfg`, where the accessors read it. -/
theorem C5_valid_configuration_accepted (rt : Runtime) (st : State) (c : Config)
    (htable : SpecTable rt.formats c) (hname : ∀ e ∈ c.Emails, e.SMTP.Name ≠ "") :
    validateStruct rt.formats c = none ∧
    (Loads rt st c → ∃ s, InitConfig rt st = .returned s ∧ s.Cfg = c) := by
  have hv : validateStruct rt.formats c = none :=
    (validateStruct_accepts rt.formats c).mpr ⟨htable, hname⟩
  exact ⟨hv, fun hl => Loads_returned rt st c hl hv⟩

/-- Instance of amended C5: the sample settings file loads into the sample configuration. -/
theorem C5_valid_configuration_accepted_witness :
    SpecTable sampleFormats sampleConfig ∧
    (∀ e ∈ sampleConfig.Emails, e.SMTP.Name ≠ "") ∧
    ∃ s, InitConfig (sampleRuntime sampleFile []) initialState = .returned s ∧
      s.Cfg = sampleConfig :=
  have h := (validateStruct_accepts sampleFormats sampleConfig).mp (by decide)
  ⟨h.1, h.2,
    (C5_valid_configuration_accepted (sampleRuntime sampleFile []) initialState sampleConfig
      h.1 h.2).2 ⟨sampleFile, rfl, rfl⟩⟩

/-- C6: in a configuration whose other fields pass validation (it is accepted with some
port `q`), validation accepts `server.port = p` exactly when `1 ≤ p ≤ 65535`. -/
theorem C6_port_bounds (F : Formats) (c : Config) (p : Int)
    (hother : ∃ q, validateStruct F (withPort c q) = none) :
    validateStruct F (withPort c p) = none ↔ (1 ≤ p ∧ p ≤ 65535) := by
  obtain ⟨q, hq⟩ := hother
  rw [validateStruct_accepts] at hq ⊢
  obtain ⟨⟨hsite, hserver, hrest⟩, hname⟩ := hq
  constructor
  · rintro ⟨⟨_, hs, _⟩, _⟩
    exact hs.2
  · intro hp
    exact ⟨⟨hsite, ⟨hserver.1, hp⟩, hrest⟩, hname⟩

/-- Instance of C6 on the sample configuration: ports 1 and 65535 are accepted,
ports 0 and 65536 are rejected. -/
theorem C6_port_bounds_witness :
    validateStruct sampleFormats (withPort sampleConfig 1) = none ∧
    validateStruct sampleFormats (withPort sampleConfig 65535) = none ∧
    validateStruct sampleFormats (withPort sampleConfig 0) ≠ none ∧
    validateStruct sampleFormats (withPort sampleConfig 65536) ≠ none :=
  have hother : ∃ q, validateStruct sampleFormats (withPort sampleConfig q) = none :=
    ⟨8080, by decide⟩
  ⟨(C6_port_bounds sampleFormats sampleConfig 1 hother).mpr (by decide),
   (C6_port_bounds sampleFormats sampleConfig 65535 hother).mpr (by decide),
   fun h => absurd ((C6_port_bounds sampleFormats sampleConfig 0 hother).mp h) (by decide),
   fun h => absurd ((C6_port_bounds sampleFormats sampleConfig 65536 hother).mp h) (by decide)⟩

/-- C7 as stated fails, for a validation error and for an unmarshal error alike. With
`server.port: 0` in the settings file `InitConfig` ends in the fatal path of validation,
and at that point `Cfg` is no longer what it was before the call: it holds the decoded
configuration, which did not pass validation. With `server.port: eighty` it ends in the
fatal path of unmarshalling, and `Cfg` holds every field that could be decoded. -/
theorem C7_unvalidated_configuration_stored :
    (∃ s, InitConfig (sampleRuntime sampleFilePortZero []) initialState =
        .fatal "Configuration validation failed" s ∧
      s.Cfg ≠ initialState.Cfg ∧
      s.Cfg = withPort sampleConfig 0 ∧
      validateStruct sampleFormats s.Cfg ≠ none) ∧
    (∃ s, InitConfig (sampleRuntime sampleFilePortText []) initialState =
        .fatal "Error unmarshalling config" s ∧
      s.Cfg ≠ initialState.Cfg ∧
      s.Cfg = withPort sampleConfig 0 ∧
      validateStruct sampleFormats s.Cfg ≠ none) :=
  ⟨⟨_, rfl, by decide, rfl, by decide⟩, ⟨_, rfl, by decide, rfl, by decide⟩⟩

/-- C7, amended: `InitConfig` returns to its caller only when the settings file loaded,
`k.Unmarshal` met no error and `Cfg` holds a configuration that passes every rule; every
failure ends the process instead: a failure to load the settings file is fatal and
leaves `k` and `Cfg` as they were; an unmarshal error is fatal, with `Cfg` holding what
`k.Unmarshal` wrote; a validation error is fatal, with `Cfg` holding the configuration
that was decoded; and there is no other way for a run to end. -/
theorem C7_returns_only_validated (rt : Runtime) (st : State) :
    (∀ s, InitConfig rt st = .returned s →
      validateStruct rt.formats s.Cfg = none ∧ Loads rt st s.Cfg) ∧
    (∀ e, rt.loadYaml (configFile rt.environ) = .error e →
      InitConfig rt st = .fatal "Error loading config file" st) ∧
    (∀ layer cfg e, rt.loadYaml (configFile rt.environ) = .ok layer →
      rt.unmarshal (loadedKeys rt st layer) st.Cfg = (cfg, some e) →
      InitConfig rt st =
        .fatal "Error unmarshalling config" { k := loadedKeys rt st layer, Cfg := cfg }) ∧
    (∀ cfg, Loads rt st cfg → validateStruct rt.formats cfg ≠ none →
      ∃ s, InitConfig rt st = .fatal "Configuration validation failed" s ∧ s.Cfg = cfg) ∧
    ((∃ s, InitConfig rt st = .returned s) ∨
      ∃ msg s, InitConfig rt st = .fatal msg s ∧
        (msg = "Error loading config file" ∨ msg = "Error unmarshalling config" ∨
          msg = "Configuration validation failed")) := by
  refine ⟨fun s hs => ⟨InitConfig_returned_valid rt st s hs,
    InitConfig_returned_Loads rt st s hs⟩, ?_, ?_, ?_, ?_⟩
  · intro e he
    unfold InitConfig
    rw [he]
  · intro layer cfg e hl hu
    exact InitConfig_unmarshal_error rt st layer cfg e hl hu
  · intro cfg hl hv
    exact Loads_fatal rt st cfg hl hv
  · unfold InitConfig
    cases hl : rt.loadYaml (configFile rt.environ) with
    | error e => exact Or.inr ⟨_, _, rfl, Or.inl rfl⟩
    | ok layer =>
      dsimp only
      generalize rt.unmarshal _ st.Cfg = r
      obtain ⟨cfg, err⟩ := r
      cases err with
      | some e => exact Or.inr ⟨_, _, rfl, Or.inr (Or.inl rfl)⟩
      | none =>
        dsimp only
        cases validateStruct rt.formats cfg with
        | some errs => exact Or.inr ⟨_, _, rfl, Or.inr (Or.inr rfl)⟩
        | none => exact Or.inl ⟨_, rfl⟩

/-- Instance of amended C7: the sample settings file makes `InitConfig` return with a
validated `Cfg`; a missing settings file is fatal and leaves the state untouched; a
settings file with `server.port: eighty` is fatal in unmarshalling, with the other
fields of the file in `Cfg`. -/
theorem C7_returns_only_validated_witness :
    (∃ s, InitConfig (sampleRuntime sampleFile []) initialState = .returned s ∧
      validateStruct sampleFormats s.Cfg = none) ∧
    InitConfig (sampleRuntime sampleFile [("AUTH5_CONFIG", "/etc/auth5.yml")]) initialState =
      .fatal "Error loading config file" initialState ∧
    InitConfig (sampleRuntime sampleFilePortText []) initialState =
      .fatal "Error unmarshalling config"
        { k := loadedKeys (sampleRuntime sampleFilePortText []) initialState
            sampleFilePortText,
          Cfg := withPort sampleConfig 0 } :=
  ⟨⟨_, rfl,
    ((C7_returns_only_validated (sampleRuntime sampleFile []) initialState).1 _ rfl).1⟩,
   (C7_returns_only_validated (sampleRuntime sampleFile [("AUTH5_CONFIG", "/etc/auth5.yml")])
      initialState).2.1 "open: no such file or directory" rfl,
   (C7_returns_only_validated (sampleRuntime sampleFilePortText []) initialState).2.2.1
      sampleFilePortText (withPort sampleConfig 0) "error(s) decoding" rfl rfl⟩

/-- C8: a configuration in which the site URL, the API URL, the geolocation feed URL,
the redirect URL of an identity provider, or some element of the cross-origin origins
list is rejected by the `url` check fails validation. -/
theorem C8_url_fields_reject_non_urls (F : Formats) (c : Config)
    (h : F.url c.Site.URL = false ∨ F.url c.Site.APIURL = false ∨
      F.url c.MaxMind.GeoLite2.Country = false ∨
      F.url c.OAuth.Google.RedirectURL = false ∨
      F.url c.OAuth.GitHub.RedirectURL = false ∨
      ∃ o ∈ c.CORS.Origins, F.url o = false) :
    validateStruct F c ≠ none := by
  intro hv
  rw [validateStruct_accepts] at hv
  obtain ⟨⟨hsite, _, _, _, hmm, _, _, hcors, _, hgoogle, hgithub⟩, _⟩ := hv
  rcases h with h | h | h | h | h | ⟨o, ho, h⟩
  · rw [hsite.2.1.2] at h; cases h
  · rw [hsite.2.2.2] at h; cases h
  · rw [hmm.2] at h; cases h
  · rw [hgoogle.2.2.2] at h; cases h
  · rw [hgithub.2.2.2] at h; cases h
  · rw [hcors.2 o ho] at h; cases h

/-- Instance of C8: the sample configuration with `site.url = "not a url"` is rejected. -/
theorem C8_url_fields_reject_non_urls_witness :
    sampleFormats.url "not a url" = false ∧
    validateStruct sampleFormats
      { sampleConfig with Site := { sampleConfig.Site with URL := "not a url" } } ≠ none :=
  ⟨by decide,
    C8_url_fields_reject_non_urls sampleFormats
      { sampleConfig with Site := { sampleConfig.Site with URL := "not a url" } }
      (Or.inl (by decide))⟩

/-- C9: a configuration whose server host is rejected by the `ip` check (it is not a
valid IPv4 or IPv6 address) fails validation. -/
theorem C9_server_host_must_be_ip (F : Formats) (c : Config)
    (h : F.ip c.Server.Host = false) :
    validateStruct F c ≠ none := by
  intro hv
  rw [validateStruct_accepts] at hv
  obtain ⟨⟨_, hserver, _⟩, _⟩ := hv
  rw [hserver.1.2] at h
  cases h

/-- Instance of C9: the sample configuration with `server.host = "localhost"` is
rejected. -/
theorem C9_server_host_must_be_ip_witness :
    sampleFormats.ip "localhost" = false ∧
    validateStruct sampleFormats
      { sampleConfig with Server := { sampleConfig.Server with Host := "localhost" } } ≠ none :=
  ⟨by decide,
    C9_server_host_must_be_ip sampleFormats
      { sampleConfig with Server := { sampleConfig.Server with Host := "localhost" } }
      (by decide)⟩

/-- C10: validation fails when the mail-profile list is empty, and when some element of
the list, at whatever position, violates a mail-profile rule: empty nickname, `from` or
`username` rejected by the `email` check, empty password or host, port below 1 or above
65535. -/
theorem C10_mail_profiles_validated_elementwise (F : Formats) (c : Config)
    (h : c.Emails = [] ∨
      ∃ i, ∃ hi : i < c.Emails.length,
        (c.Emails.get ⟨i, hi⟩).Nickname = "" ∨
        F.email (c.Emails.get ⟨i, hi⟩).SMTP.From = false ∨
        F.email (c.Emails.get ⟨i, hi⟩).SMTP.Username = false ∨
        (c.Emails.get ⟨i, hi⟩).SMTP.Password = "" ∨
        (c.Emails.get ⟨i, hi⟩).SMTP.Host = "" ∨
        (c.Emails.get ⟨i, hi⟩).SMTP.Port < 1 ∨
        65535 < (c.Emails.get ⟨i, hi⟩).SMTP.Port) :
    validateStruct F c ≠ none := by
  intro hv
  rw [validateStruct_accepts] at hv
  obtain ⟨⟨_, _, _, _, _, _, hemails, _⟩, _⟩ := hv
  rcases h with h | ⟨i, hi, h⟩
  · exact hemails.1 h
  · obtain ⟨hnick, hfrom, huser, hpass, hhost, hport⟩ :=
      hemails.2 _ (List.get_mem c.Emails i hi)
    rcases h with h | h | h | h | h | h | h
    · exact hnick h
    · rw [hfrom.2] at h; cases h
    · rw [huser.2] at h; cases h
    · exact hpass h
    · exact hhost h
    · omega
    · omega

/-- Instance of C10: the sample configuration whose second mail profile has port 70000
is rejected. -/
theorem C10_mail_profiles_validated_elementwise_witness :
    validateStruct sampleFormats
      { sampleConfig with Emails :=
          [ { Nickname := "primary", SMTP := sampleSMTP "smtp.example.com" },
            { Nickname := "alerts",
              SMTP := { sampleSMTP "alerts.example.com" with Port := 70000 } } ] } ≠ none :=
  C10_mail_profiles_validated_elementwise sampleFormats
    { sampleConfig with Emails :=
        [ { Nickname := "primary", SMTP := sampleSMTP "smtp.example.com" },
          { Nickname := "alerts",
            SMTP := { sampleSMTP "alerts.example.com" with Port := 70000 } } ] }
    (Or.inr ⟨1, by decide, Or.inr (Or.inr (Or.inr (Or.inr (Or.inr (Or.inr (by decide))))))⟩)

/-- C11: in every state each section getter returns exactly the corresponding section
of `Cfg` and leaves the state, `Cfg` included, as it was: `GetSiteConfig` gives
`Cfg.Site`, `GetServerConfig` `Cfg.Server`, `GetSwaggerConfig` `Cfg.Swagger`,
`GetStripeConfig` `Cfg.Stripe`, `GetMaxMind` `Cfg.MaxMind`, `GetSentryConfig` `Cfg.Sentry`,
`GetCORSConfig` `Cfg.CORS`, `GetDatabaseConfig` `Cfg.Database`, `GetOauthConfig`
`Cfg.OAuth`; in the initial state, before any load, each getter returns the section
whose fields are all zero values. -/
theorem C11_section_getters (st : State) :
    (GetSiteConfig st = (st.Cfg.Site, st) ∧
      GetServerConfig st = (st.Cfg.Server, st) ∧
      GetSwaggerConfig st = (st.Cfg.Swagger, st) ∧
      GetStripeConfig st = (st.Cfg.Stripe, st) ∧
      GetMaxMind st = (st.Cfg.MaxMind, st) ∧
      GetSentryConfig st = (st.Cfg.Sentry, st) ∧
      GetCORSConfig st = (st.Cfg.CORS, st) ∧
      GetDatabaseConfig st = (st.Cfg.Database, st) ∧
      GetOauthConfig st = (st.Cfg.OAuth, st)) ∧
    ((GetSiteConfig initialState).1 = { Name := "", URL := "", APIURL := "" } ∧
      (GetServerConfig initialState).1 = { Host := "", Port := 0 } ∧
      (GetSwaggerConfig initialState).1 = { Web := false, Path := "" } ∧
      (GetStripeConfig initialState).1 = { SecretKey := "", Webhook := { Secret := "" } } ∧
      (GetMaxMind initialState).1 = { GeoLite2 := { Country := "" } } ∧
      (GetSentryConfig initialState).1 = { DSN := "" } ∧
      (GetCORSConfig initialState).1 = { Origins := [] } ∧
      (GetDatabaseConfig initialState).1 =
        { MongoDB := { URI := "", DBName := "" }, Badger := { Dir := "" } } ∧
      (GetOauthConfig initialState).1 =
        { Google := { ClientID := "", ClientSecret := "", RedirectURL := "" },
          GitHub := { ClientID := "", ClientSecret := "", RedirectURL := "" } }) :=
  ⟨⟨rfl, rfl, rfl, rfl, rfl, rfl, rfl, rfl, rfl⟩,
   ⟨rfl, rfl, rfl, rfl, rfl, rfl, rfl, rfl, rfl⟩⟩

/-- C12: the path of the settings file is the value of the environment variable
`AUTH5_CONFIG` when that variable is set to a non-empty string, and `auth5.yml` when it
is unset or set to the empty string; this path is the one `InitConfig` loads: when the
file at this path parses to a key tree, that tree is merged into `k` and decoded into
`Cfg` and the run does not end in the fatal path of loading; when loading it fails the
run is fatal; and the run consults the file reader at this path only. -/
theorem C12_config_file_path (rt : Runtime) (st : State) :
    (∀ v, LookupEnv rt.environ "AUTH5_CONFIG" = some v → v ≠ "" →
      configFile rt.environ = v) ∧
    (LookupEnv rt.environ "AUTH5_CONFIG" = none ∨
        LookupEnv rt.environ "AUTH5_CONFIG" = some "" →
      configFile rt.environ = "auth5.yml") ∧
    (∀ reader : String → Except String KMap,
      reader (configFile rt.environ) = rt.loadYaml (configFile rt.environ) →
      InitConfig { rt with loadYaml := reader } st = InitConfig rt st) ∧
    (∀ e, rt.loadYaml (configFile rt.environ) = .error e →
      InitConfig rt st = .fatal "Error loading config file" st) ∧
    (∀ layer, rt.loadYaml (configFile rt.environ) = .ok layer →
      (InitConfig rt st).state.k = loadedKeys rt st layer ∧
      (InitConfig rt st).state.Cfg = (rt.unmarshal (loadedKeys rt st layer) st.Cfg).1 ∧
      ∀ s, InitConfig rt st ≠ .fatal "Error loading config file" s) := by
  refine ⟨fun v h hv => configFile_of_set rt.environ v h hv,
    fun h => configFile_of_unset_or_empty rt.environ h, ?_, ?_, ?_⟩
  · intro reader hr
    unfold InitConfig
    simp only [hr]
  · intro e he
    unfold InitConfig
    rw [he]
  · intro layer hl
    rw [InitConfig_state_of_loaded rt st layer hl]
    exact ⟨rfl, rfl, fun s => InitConfig_not_load_fatal rt st layer hl s⟩

/-- Instance of C12: with `AUTH5_CONFIG=/etc/auth5.yml` the path is `/etc/auth5.yml`; with
the variable unset, or set to the empty string, it is `auth5.yml`. A run with the
variable set to `/etc/auth5.yml` and the settings file only there loads that file: it
ends with the sample configuration in `Cfg`, by returning. A run whose settings file
exists only at `auth5.yml` is fatal when the variable points elsewhere, and a run whose
settings file exists only at `/etc/auth5.yml` is fatal when the variable is unset. -/
theorem C12_config_file_path_witness :
    configFile [("HOME", "/root"), ("AUTH5_CONFIG", "/etc/auth5.yml")] = "/etc/auth5.yml" ∧
    configFile [("HOME", "/root")] = "auth5.yml" ∧
    configFile [("AUTH5_CONFIG", "")] = "auth5.yml" ∧
    InitConfig (sampleRuntime sampleFile [("AUTH5_CONFIG", "/etc/auth5.yml")]) initialState =
      .fatal "Error loading config file" initialState ∧
    (InitConfig (sampleRuntimeAt "/etc/auth5.yml" sampleFile
        [("AUTH5_CONFIG", "/etc/auth5.yml")]) initialState).state.Cfg = sampleConfig ∧
    (∃ s, InitConfig (sampleRuntimeAt "/etc/auth5.yml" sampleFile
        [("AUTH5_CONFIG", "/etc/auth5.yml")]) initialState = .returned s) ∧
    InitConfig (sampleRuntimeAt "/etc/auth5.yml" sampleFile []) initialState =
      .fatal "Error loading config file" initialState :=
  ⟨(C12_config_file_path
      (sampleRuntime sampleFile [("HOME", "/root"), ("AUTH5_CONFIG", "/etc/auth5.yml")])
      initialState).1 "/etc/auth5.yml" rfl (by decide),
   (C12_config_file_path (sampleRuntime sampleFile [("HOME", "/root")]) initialState).2.1
      (Or.inl rfl),
   (C12_config_file_path (sampleRuntime sampleFile [("AUTH5_CONFIG", "")]) initialState).2.1
      (Or.inr rfl),
   (C12_config_file_path (sampleRuntime sampleFile [("AUTH5_CONFIG", "/etc/auth5.yml")])
      initialState).2.2.2.1 "open: no such file or directory" rfl,
   ((C12_config_file_path (sampleRuntimeAt "/etc/auth5.yml" sampleFile
      [("AUTH5_CONFIG", "/etc/auth5.yml")]) initialState).2.2.2.2 sampleFile rfl).2.1.trans rfl,
   ⟨_, rfl⟩,
   (C12_config_file_path (sampleRuntimeAt "/etc/auth5.yml" sampleFile []) initialState).2.2.2.1
      "open: no such file or directory" rfl⟩

end config
